import Mathlib

/-!
Shallow embedding of the kernel argument binding and dispatch subsystem of
`fil-ocl` (`src/standard/kernel.rs`), together with theorems settling the
spec claims about it.

The foreign OpenCL driver (`raw::set_kernel_arg`, `raw::enqueue_kernel`,
`raw::create_kernel`) is a black box: each embedded operation takes the
driver's status for the single foreign call it may issue as an explicit
parameter, and returns the list of foreign calls actually issued, so that
theorems can speak about which calls happen and in what order.  A Rust
`panic!` / `.unwrap()` failure is modelled by the `PanicOr.panic` outcome.
-/

namespace FilOcl

/-- Modelled from the spec: `WorkDims` is absent from the provided sources
(only `kernel.rs` uses it).  Per spec section 3 it is a tagged value over
Unspecified / One / Two / Three with nonnegative (usize) components. -/
inductive WorkDims where
  | Unspecified : WorkDims
  | One : Nat → WorkDims
  | Two : Nat → Nat → WorkDims
  | Three : Nat → Nat → Nat → WorkDims
deriving DecidableEq, Repr

/-- Modelled from the spec: `dim_count()` is 0 for Unspecified, else 1 - 3. -/
def WorkDims.dim_count : WorkDims → Nat
  | .Unspecified => 0
  | .One _ => 1
  | .Two _ _ => 2
  | .Three _ _ _ => 3

/-- Modelled from the spec: `as_raw()` returns `none` for Unspecified and
otherwise the populated dimensions with unpopulated trailing dimensions
defaulted to 1 (spec section 4.1). -/
def WorkDims.as_raw : WorkDims → Option (Nat × Nat × Nat)
  | .Unspecified => none
  | .One x => some (x, 1, 1)
  | .Two x y => some (x, y, 1)
  | .Three x y z => some (x, y, z)

/-- The error type (`OclError`).  `kernel.rs` builds string errors via
`OclError::err(String)`; foreign-call failures carry the driver status. -/
inductive OclError where
  | string : String → OclError
  | foreign : Int → OclError
deriving DecidableEq, Repr

/-- The status a black-box foreign driver call returns. -/
inductive ForeignStatus where
  | success : ForeignStatus
  | failure : Int → ForeignStatus
deriving DecidableEq, Repr

/-- `KernelArg` as used by `kernel.rs`: scalar value, memory object,
null memory sentinel, or a local allocation of a given length.
Scalar values (generic `T: OclNum` in the source) are embedded as `Int`;
buffer handles (`MemRaw`) as `Nat`. -/
inductive KernelArg where
  | Scalar : Int → KernelArg
  | Mem : Nat → KernelArg
  | MemNull : KernelArg
  | Local : Nat → KernelArg
deriving DecidableEq, Repr

/-- A record of one foreign driver call with the exact arguments passed,
mirroring the signatures of `raw::set_kernel_arg` and
`raw::enqueue_kernel` as invoked from `kernel.rs`.  Opaque handles
(kernel object, command queue, event-list raw representations) are `Nat`. -/
inductive ForeignCall where
  | setKernelArg : (kernel : Nat) → (idx : Nat) → (arg : KernelArg) →
      (kernelName : Option String) → ForeignCall
  | enqueueKernel : (queue : Nat) → (kernel : Nat) → (dims : Nat) →
      (offset : Option (Nat × Nat × Nat)) → (gwsRaw : Nat × Nat × Nat) →
      (lwsRaw : Option (Nat × Nat × Nat)) → (waitList : Option Nat) →
      (destList : Option Nat) → (kernelName : Option String) → ForeignCall
deriving DecidableEq, Repr

/-- Outcome of an operation that may `panic!` (or `.unwrap()` a failure). -/
inductive PanicOr (α : Type) where
  | panic : String → PanicOr α
  | ok : α → PanicOr α
deriving DecidableEq, Repr

/-- The `Kernel` struct of `kernel.rs`.  `obj_raw` and `command_queue`
are opaque handles; `named_args` (a `HashMap<&'static str, u32>` in the
source) is an association list whose insert replaces any existing
binding, matching `HashMap::insert`.  `arg_index` and `arg_count` are
`u32` in the source; they only ever grow by one per argument-adding call,
so they are embedded as `Nat`. -/
structure Kernel where
  obj_raw : Nat
  name : String
  arg_index : Nat
  named_args : List (String × Nat)
  arg_count : Nat
  command_queue : Nat
  gwo : WorkDims
  gws : WorkDims
  lws : WorkDims
deriving DecidableEq, Repr

/-- `HashMap::insert`: bind `name` to `idx`, replacing any existing binding. -/
def insertNamed (m : List (String × Nat)) (name : String) (idx : Nat) :
    List (String × Nat) :=
  (name, idx) :: m.filter (fun p => p.1 ≠ name)

/-- `Kernel::new`: ask the driver for a kernel object (black box: the
result is the `createRes` parameter) and initialize the fields exactly as
the source constructor does. -/
def Kernel.new (name : String) (queue : Nat) (gws : WorkDims)
    (createRes : Except OclError Nat) : Except OclError Kernel :=
  match createRes with
  | .error e => .error e
  | .ok obj => .ok
      { obj_raw := obj
        name := name
        arg_index := 0
        named_args := []
        arg_count := 0
        command_queue := queue
        gwo := WorkDims.Unspecified
        gws := gws
        lws := WorkDims.Unspecified }

/-- `Kernel::gwo` (builder-style global-work-offset setter): stores the
offset when its dim count matches the global size's, else panics.  No
foreign call is made in either case (the returned trace is empty). -/
def Kernel.set_gwo (k : Kernel) (gwo : WorkDims) :
    List ForeignCall × PanicOr Kernel :=
  if gwo.dim_count = k.gws.dim_count then
    ([], .ok { k with gwo := gwo })
  else
    ([], .panic "ocl::Kernel::gwo(): Work size mismatch.")

/-- `Kernel::lws` (builder-style local-work-size setter): stores the local
size when its dim count matches the global size's, else panics.  No
foreign call is made in either case. -/
def Kernel.set_lws (k : Kernel) (lws : WorkDims) :
    List ForeignCall × PanicOr Kernel :=
  if lws.dim_count = k.gws.dim_count then
    ([], .ok { k with lws := lws })
  else
    ([], .panic "ocl::Kernel::lws(): Work size mismatch.")

/-- `Kernel::new_arg`: issues the foreign set-argument call at the current
`arg_index`, unwraps its result (panicking on failure, before the counter
is incremented), then increments `arg_index` and returns the old index. -/
def Kernel.new_arg (k : Kernel) (arg : KernelArg) (st : ForeignStatus) :
    List ForeignCall × PanicOr (Kernel × Nat) :=
  let arg_idx := k.arg_index
  let call := ForeignCall.setKernelArg k.obj_raw arg_idx arg (some k.name)
  match st with
  | .success => ([call], .ok ({ k with arg_index := k.arg_index + 1 }, arg_idx))
  | .failure code =>
      ([call], .panic ("called Result::unwrap on an Err value: " ++ toString code))

/-- `Kernel::new_arg_buf`: a present buffer binds its memory object, a
missing one binds the null-memory sentinel. -/
def Kernel.new_arg_buf (k : Kernel) (buffer_opt : Option Nat)
    (st : ForeignStatus) : List ForeignCall × PanicOr (Kernel × Nat) :=
  match buffer_opt with
  | some buffer => k.new_arg (KernelArg.Mem buffer) st
  | none => k.new_arg KernelArg.MemNull st

/-- `Kernel::new_arg_scl`: a missing scalar binds the type's default
(zero) value as a placeholder. -/
def Kernel.new_arg_scl (k : Kernel) (scalar_opt : Option Int)
    (st : ForeignStatus) : List ForeignCall × PanicOr (Kernel × Nat) :=
  let scalar := match scalar_opt with
    | some scl => scl
    | none => 0
  k.new_arg (KernelArg.Scalar scalar) st

/-- `Kernel::new_arg_loc`: binds a local allocation of the given length. -/
def Kernel.new_arg_loc (k : Kernel) (length : Nat) (st : ForeignStatus) :
    List ForeignCall × PanicOr (Kernel × Nat) :=
  k.new_arg (KernelArg.Local length) st

/-- `Kernel::arg_buf` (builder-style): adds a buffer argument. -/
def Kernel.arg_buf (k : Kernel) (buffer : Nat) (st : ForeignStatus) :
    List ForeignCall × PanicOr Kernel :=
  match k.new_arg_buf (some buffer) st with
  | (tr, .ok (k1, _)) => (tr, .ok k1)
  | (tr, .panic msg) => (tr, .panic msg)

/-- `Kernel::arg_scl` (builder-style): adds a scalar argument. -/
def Kernel.arg_scl (k : Kernel) (scalar : Int) (st : ForeignStatus) :
    List ForeignCall × PanicOr Kernel :=
  match k.new_arg_scl (some scalar) st with
  | (tr, .ok (k1, _)) => (tr, .ok k1)
  | (tr, .panic msg) => (tr, .panic msg)

/-- `Kernel::arg_loc` (builder-style): adds a local-allocation argument. -/
def Kernel.arg_loc (k : Kernel) (length : Nat) (st : ForeignStatus) :
    List ForeignCall × PanicOr Kernel :=
  match k.new_arg_loc length st with
  | (tr, .ok (k1, _)) => (tr, .ok k1)
  | (tr, .panic msg) => (tr, .panic msg)

/-- `Kernel::arg_scl_named` (builder-style): adds a scalar argument and
registers `name` against the new slot index. -/
def Kernel.arg_scl_named (k : Kernel) (name : String)
    (scalar_opt : Option Int) (st : ForeignStatus) :
    List ForeignCall × PanicOr Kernel :=
  match k.new_arg_scl scalar_opt st with
  | (tr, .ok (k1, arg_idx)) =>
      (tr, .ok { k1 with named_args := insertNamed k1.named_args name arg_idx })
  | (tr, .panic msg) => (tr, .panic msg)

/-- `Kernel::arg_buf_named` (builder-style): adds a buffer argument and
registers `name` against the new slot index. -/
def Kernel.arg_buf_named (k : Kernel) (name : String)
    (buffer_opt : Option Nat) (st : ForeignStatus) :
    List ForeignCall × PanicOr Kernel :=
  match k.new_arg_buf buffer_opt st with
  | (tr, .ok (k1, arg_idx)) =>
      (tr, .ok { k1 with named_args := insertNamed k1.named_args name arg_idx })
  | (tr, .panic msg) => (tr, .panic msg)

/-- `Kernel::resolve_named_arg_idx`: looks the name up in `named_args`,
failing with a string error that carries the name when absent. -/
def Kernel.resolve_named_arg_idx (k : Kernel) (name : String) :
    Except OclError Nat :=
  match k.named_args.lookup name with
  | some ai => .ok ai
  | none => .error (.string
      ("Kernel::set_arg_scl_named(): Invalid argument name: " ++
        "'" ++ name ++ "'."))

/-- `Kernel::set_arg`: re-issues the foreign set-argument call at a fixed
index, returning the driver failure as an error (no panic). -/
def Kernel.set_arg (k : Kernel) (arg_idx : Nat) (arg : KernelArg)
    (st : ForeignStatus) : List ForeignCall × Except OclError Unit :=
  let call := ForeignCall.setKernelArg k.obj_raw arg_idx arg (some k.name)
  match st with
  | .success => ([call], .ok ())
  | .failure code => ([call], .error (.foreign code))

/-- `Kernel::set_arg_scl_named`: resolves the name, then re-issues the
foreign set-argument call at the resolved index.  Takes `&mut self` in
the source but never mutates any field, so no kernel is returned. -/
def Kernel.set_arg_scl_named (k : Kernel) (name : String) (scalar : Int)
    (st : ForeignStatus) : List ForeignCall × Except OclError Unit :=
  match k.resolve_named_arg_idx name with
  | .error e => ([], .error e)
  | .ok arg_idx => k.set_arg arg_idx (KernelArg.Scalar scalar) st

/-- `Kernel::set_arg_buf_named`: resolves the name, then re-issues the
foreign set-argument call with the buffer's memory object, or the
null-memory sentinel when the buffer is absent. -/
def Kernel.set_arg_buf_named (k : Kernel) (name : String)
    (buffer_opt : Option Nat) (st : ForeignStatus) :
    List ForeignCall × Except OclError Unit :=
  match k.resolve_named_arg_idx name with
  | .error e => ([], .error e)
  | .ok arg_idx =>
      match buffer_opt with
      | some buffer => k.set_arg arg_idx (KernelArg.Mem buffer) st
      | none => k.set_arg arg_idx KernelArg.MemNull st

/-- `Kernel::enqueue`: evaluates `self.gws.as_raw().unwrap()` (panicking
before any foreign call when the global size is Unspecified), then issues
exactly one foreign enqueue-kernel call with the bound queue, the kernel
object, the global size's dim count, the raw offset, raw global size, raw
local size, the optional wait/signal lists' raw representations, and the
kernel name; the foreign result is unwrapped (panic on failure).
Takes `&self`: no field of the handle is modified. -/
def Kernel.enqueue (k : Kernel) (wait_list : Option Nat)
    (dest_list : Option Nat) (st : ForeignStatus) :
    List ForeignCall × PanicOr Unit :=
  match k.gws.as_raw with
  | none => ([], .panic "called Option::unwrap on a None value")
  | some gwsRaw =>
      let call := ForeignCall.enqueueKernel k.command_queue k.obj_raw
        k.gws.dim_count k.gwo.as_raw gwsRaw k.lws.as_raw
        wait_list dest_list (some k.name)
      match st with
      | .success => ([call], .ok ())
      | .failure code =>
          ([call], .panic ("called Result::unwrap on an Err value: " ++ toString code))

/-- One host-side operation on a kernel handle, for stating properties of
arbitrary operation sequences. -/
inductive Op where
  | opArgBuf : Nat → Op
  | opArgScl : Int → Op
  | opArgLoc : Nat → Op
  | opArgSclNamed : String → Option Int → Op
  | opArgBufNamed : String → Option Nat → Op
  | opSetArgSclNamed : String → Int → Op
  | opSetArgBufNamed : String → Option Nat → Op
  | opSetGwo : WorkDims → Op
  | opSetLws : WorkDims → Op
  | opEnqueue : Option Nat → Option Nat → Op
deriving DecidableEq, Repr

/-- Runs one operation on a kernel handle.  Operations that take `&self`
or `&mut self` without mutating (set_arg_*_named, enqueue) return the
handle unchanged; a recoverable `Err` from them also leaves the handle
unchanged.  A panic aborts (no resulting handle). -/
def step (k : Kernel) (op : Op) (st : ForeignStatus) :
    List ForeignCall × PanicOr Kernel :=
  match op with
  | .opArgBuf buffer => k.arg_buf buffer st
  | .opArgScl scalar => k.arg_scl scalar st
  | .opArgLoc length => k.arg_loc length st
  | .opArgSclNamed name scalar_opt => k.arg_scl_named name scalar_opt st
  | .opArgBufNamed name buffer_opt => k.arg_buf_named name buffer_opt st
  | .opSetArgSclNamed name scalar =>
      (k.set_arg_scl_named name scalar st).1 |> (fun tr => (tr, .ok k))
  | .opSetArgBufNamed name buffer_opt =>
      (k.set_arg_buf_named name buffer_opt st).1 |> (fun tr => (tr, .ok k))
  | .opSetGwo gwo => k.set_gwo gwo
  | .opSetLws lws => k.set_lws lws
  | .opEnqueue wait_list dest_list =>
      match k.enqueue wait_list dest_list st with
      | (tr, .ok ()) => (tr, .ok k)
      | (tr, .panic msg) => (tr, .panic msg)

/-- Invariant of claim C10: every slot index stored in the
named-argument map is strictly below the argument-position counter. -/
def namedIdxInv (k : Kernel) : Prop :=
  ∀ p ∈ k.named_args, p.2 < k.arg_index

instance (k : Kernel) : Decidable (namedIdxInv k) :=
  List.decidableBAll _ k.named_args

/-- A sample kernel handle, used by witness theorems. -/
def kSample : Kernel :=
  { obj_raw := 7
    name := "add"
    arg_index := 2
    named_args := [("x", 1)]
    arg_count := 0
    command_queue := 3
    gwo := WorkDims.Unspecified
    gws := WorkDims.Three 4 4 4
    lws := WorkDims.Unspecified }

/-- The sample kernel with its global work size left Unspecified. -/
def kNoGws : Kernel := { kSample with gws := WorkDims.Unspecified }

/-- A freshly constructed kernel handle (the fields `Kernel::new` sets). -/
def kFresh : Kernel :=
  { obj_raw := 7
    name := "add"
    arg_index := 0
    named_args := []
    arg_count := 0
    command_queue := 3
    gwo := WorkDims.Unspecified
    gws := WorkDims.Three 4 4 4
    lws := WorkDims.Unspecified }

/-- A successful lookup in an association list finds some stored pair
carrying the returned value. -/
theorem lookup_mem_val {l : List (String × Nat)} {name : String} {idx : Nat}
    (h : l.lookup name = some idx) : ∃ p ∈ l, p.2 = idx := by
  induction l with
  | nil => simp [List.lookup] at h
  | cons a t ih =>
      obtain ⟨a1, a2⟩ := a
      rw [List.lookup] at h
      by_cases hb : name = a1
      · subst hb
        simp at h
        exact ⟨(name, a2), List.mem_cons_self _ _, h⟩
      · have hb' : (name == a1) = false := by simpa using hb
        rw [hb'] at h
        obtain ⟨p, hp, hv⟩ := ih h
        exact ⟨p, List.mem_cons_of_mem _ hp, hv⟩

/-- Membership in the map after an insert: the new pair, or an old one. -/
theorem mem_insertNamed {m : List (String × Nat)} {name : String} {idx : Nat}
    {p : String × Nat} (h : p ∈ insertNamed m name idx) :
    p = (name, idx) ∨ p ∈ m := by
  rw [insertNamed] at h
  rcases List.mem_cons.mp h with h | h
  · exact Or.inl h
  · exact Or.inr (List.mem_of_mem_filter h)

/-- C1: for every kernel handle whose global work size is specified,
`enqueue` issues exactly one foreign enqueue-kernel call, whose arguments
are the bound command queue, the kernel's foreign object, the global
size's `dim_count()`, `as_raw()` of the offset (`none` when the offset is
Unspecified), `as_raw()` of the global size unwrapped to `some`,
`as_raw()` of the local size (`none` when the local size is Unspecified),
and the supplied wait and signal lists. -/
theorem claim_C1_enqueue_one_foreign_call (k : Kernel) (w d : Option Nat)
    (st : ForeignStatus) (h : k.gws ≠ WorkDims.Unspecified) :
    ∃ gr, k.gws.as_raw = some gr ∧
      (k.enqueue w d st).1 =
        [ForeignCall.enqueueKernel k.command_queue k.obj_raw
          k.gws.dim_count k.gwo.as_raw gr k.lws.as_raw w d (some k.name)] ∧
      (k.gwo = WorkDims.Unspecified → k.gwo.as_raw = none) ∧
      (k.lws = WorkDims.Unspecified → k.lws.as_raw = none) := by
  cases hg : k.gws with
  | Unspecified => exact absurd hg h
  | One x =>
      refine ⟨(x, 1, 1), rfl, ?_, ?_, ?_⟩
      · cases st <;> simp [Kernel.enqueue, hg, WorkDims.as_raw]
      · intro hw; rw [hw]; rfl
      · intro hw; rw [hw]; rfl
  | Two x y =>
      refine ⟨(x, y, 1), rfl, ?_, ?_, ?_⟩
      · cases st <;> simp [Kernel.enqueue, hg, WorkDims.as_raw]
      · intro hw; rw [hw]; rfl
      · intro hw; rw [hw]; rfl
  | Three x y z =>
      refine ⟨(x, y, z), rfl, ?_, ?_, ?_⟩
      · cases st <;> simp [Kernel.enqueue, hg, WorkDims.as_raw]
      · intro hw; rw [hw]; rfl
      · intro hw; rw [hw]; rfl

/-- Witness for C1 at a concrete kernel with global size `(4,4,4)`. -/
theorem claim_C1_witness :
    kSample.gws ≠ WorkDims.Unspecified ∧
      ∃ gr, kSample.gws.as_raw = some gr ∧
        (kSample.enqueue (some 11) (some 12) ForeignStatus.success).1 =
          [ForeignCall.enqueueKernel kSample.command_queue kSample.obj_raw
            kSample.gws.dim_count kSample.gwo.as_raw gr kSample.lws.as_raw
            (some 11) (some 12) (some kSample.name)] ∧
        (kSample.gwo = WorkDims.Unspecified → kSample.gwo.as_raw = none) ∧
        (kSample.lws = WorkDims.Unspecified → kSample.lws.as_raw = none) :=
  ⟨by decide,
    claim_C1_enqueue_one_foreign_call kSample (some 11) (some 12)
      ForeignStatus.success (by decide)⟩

/-- C2: for every kernel handle whose global work size is Unspecified,
`enqueue` panics (does not succeed normally) and issues no foreign call. -/
theorem claim_C2_enqueue_unspecified_fails_fast (k : Kernel)
    (w d : Option Nat) (st : ForeignStatus)
    (h : k.gws = WorkDims.Unspecified) :
    (k.enqueue w d st).1 = [] ∧
      ∃ msg, (k.enqueue w d st).2 = PanicOr.panic msg := by
  constructor
  · simp [Kernel.enqueue, h, WorkDims.as_raw]
  · exact ⟨"called Option::unwrap on a None value",
      by simp [Kernel.enqueue, h, WorkDims.as_raw]⟩

/-- Witness for C2 at a concrete kernel with Unspecified global size. -/
theorem claim_C2_witness :
    kNoGws.gws = WorkDims.Unspecified ∧
      (kNoGws.enqueue none none ForeignStatus.success).1 = [] ∧
        ∃ msg, (kNoGws.enqueue none none ForeignStatus.success).2 =
          PanicOr.panic msg :=
  ⟨rfl, claim_C2_enqueue_unspecified_fails_fast kNoGws none none
    ForeignStatus.success rfl⟩

/-- C3: every argument-adding call (`arg_buf`, `arg_scl`, `arg_loc`,
`arg_scl_named`, `arg_buf_named`) that succeeds increments `arg_index` by
exactly one, and the slot index passed to the foreign set-argument call
(and registered for the named forms) is the counter's pre-increment
value. -/
theorem claim_C3_arg_calls_use_pre_increment_index (k : Kernel)
    (buffer : Nat) (scalar : Int) (length : Nat) (name : String)
    (scalar_opt : Option Int) (buffer_opt : Option Nat) :
    k.arg_buf buffer ForeignStatus.success =
      ([ForeignCall.setKernelArg k.obj_raw k.arg_index
          (KernelArg.Mem buffer) (some k.name)],
        PanicOr.ok { k with arg_index := k.arg_index + 1 }) ∧
    k.arg_scl scalar ForeignStatus.success =
      ([ForeignCall.setKernelArg k.obj_raw k.arg_index
          (KernelArg.Scalar scalar) (some k.name)],
        PanicOr.ok { k with arg_index := k.arg_index + 1 }) ∧
    k.arg_loc length ForeignStatus.success =
      ([ForeignCall.setKernelArg k.obj_raw k.arg_index
          (KernelArg.Local length) (some k.name)],
        PanicOr.ok { k with arg_index := k.arg_index + 1 }) ∧
    (∃ a, k.arg_scl_named name scalar_opt ForeignStatus.success =
      ([ForeignCall.setKernelArg k.obj_raw k.arg_index a (some k.name)],
        PanicOr.ok { k with
          arg_index := k.arg_index + 1
          named_args := insertNamed k.named_args name k.arg_index })) ∧
    (∃ a, k.arg_buf_named name buffer_opt ForeignStatus.success =
      ([ForeignCall.setKernelArg k.obj_raw k.arg_index a (some k.name)],
        PanicOr.ok { k with
          arg_index := k.arg_index + 1
          named_args := insertNamed k.named_args name k.arg_index })) := by
  refine ⟨rfl, rfl, rfl, ?_, ?_⟩
  · cases scalar_opt <;> exact ⟨_, rfl⟩
  · cases buffer_opt <;> exact ⟨_, rfl⟩

/-- C4: registering a named scalar and later mutating it resolve the same
slot index and issue two foreign set-argument calls at that one index
with the first and then the second value; re-registering the same name
makes it resolve to the newer index (last registration wins). -/
theorem claim_C4_named_arg_set_same_index (k : Kernel) (name : String)
    (v w u : Int) :
    ∃ k1,
      k.arg_scl_named name (some v) ForeignStatus.success =
        ([ForeignCall.setKernelArg k.obj_raw k.arg_index
            (KernelArg.Scalar v) (some k.name)], PanicOr.ok k1) ∧
      k1.resolve_named_arg_idx name = Except.ok k.arg_index ∧
      k1.set_arg_scl_named name w ForeignStatus.success =
        ([ForeignCall.setKernelArg k.obj_raw k.arg_index
            (KernelArg.Scalar w) (some k.name)], Except.ok ()) ∧
      ∃ k2, (k1.arg_scl_named name (some u) ForeignStatus.success).2 =
          PanicOr.ok k2 ∧
        k2.resolve_named_arg_idx name = Except.ok (k.arg_index + 1) := by
  refine ⟨{ k with
      arg_index := k.arg_index + 1
      named_args := insertNamed k.named_args name k.arg_index },
    rfl, ?_, ?_, ?_⟩
  · simp [Kernel.resolve_named_arg_idx, insertNamed, List.lookup]
  · simp [Kernel.set_arg_scl_named, Kernel.resolve_named_arg_idx,
      insertNamed, List.lookup, Kernel.set_arg]
  · refine ⟨{ k with
        arg_index := k.arg_index + 1 + 1
        named_args := insertNamed
          (insertNamed k.named_args name k.arg_index) name
          (k.arg_index + 1) }, rfl, ?_⟩
    simp [Kernel.resolve_named_arg_idx, insertNamed, List.lookup]

/-- C5: resolving a name that was never registered returns an
invalid-argument-name error carrying the name, issues no foreign call,
and leaves the handle unchanged, for both named mutation forms. -/
theorem claim_C5_unregistered_name_error (k : Kernel) (name : String)
    (scalar : Int) (buffer_opt : Option Nat) (st : ForeignStatus)
    (h : k.named_args.lookup name = none) :
    k.resolve_named_arg_idx name = Except.error (OclError.string
      ("Kernel::set_arg_scl_named(): Invalid argument name: " ++
        "'" ++ name ++ "'.")) ∧
    k.set_arg_scl_named name scalar st =
      ([], Except.error (OclError.string
        ("Kernel::set_arg_scl_named(): Invalid argument name: " ++
          "'" ++ name ++ "'."))) ∧
    k.set_arg_buf_named name buffer_opt st =
      ([], Except.error (OclError.string
        ("Kernel::set_arg_scl_named(): Invalid argument name: " ++
          "'" ++ name ++ "'."))) ∧
    step k (Op.opSetArgSclNamed name scalar) st = ([], PanicOr.ok k) ∧
    step k (Op.opSetArgBufNamed name buffer_opt) st = ([], PanicOr.ok k) := by
  have hr : k.resolve_named_arg_idx name = Except.error (OclError.string
      ("Kernel::set_arg_scl_named(): Invalid argument name: " ++
        "'" ++ name ++ "'.")) := by
    simp [Kernel.resolve_named_arg_idx, h]
  refine ⟨hr, ?_, ?_, ?_, ?_⟩
  · simp [Kernel.set_arg_scl_named, hr]
  · simp [Kernel.set_arg_buf_named, hr]
  · simp [step, Kernel.set_arg_scl_named, hr]
  · simp [step, Kernel.set_arg_buf_named, hr]

/-- Witness for C5 at a fresh kernel with an empty named-argument map. -/
theorem claim_C5_witness :
    kFresh.named_args.lookup "y" = none ∧
      kFresh.resolve_named_arg_idx "y" = Except.error (OclError.string
        ("Kernel::set_arg_scl_named(): Invalid argument name: " ++
          "'" ++ "y" ++ "'.")) ∧
      kFresh.set_arg_scl_named "y" 7 ForeignStatus.success =
        ([], Except.error (OclError.string
          ("Kernel::set_arg_scl_named(): Invalid argument name: " ++
            "'" ++ "y" ++ "'."))) :=
  ⟨rfl,
    (claim_C5_unregistered_name_error kFresh "y" 7 none
      ForeignStatus.success rfl).1,
    (claim_C5_unregistered_name_error kFresh "y" 7 none
      ForeignStatus.success rfl).2.1⟩

/-- C6: when the foreign set-argument call fails, the builder-chained
forms panic (abort) while `set_arg_scl_named` and `set_arg_buf_named`
return the failure as an error carrying the foreign status code. -/
theorem claim_C6_builder_panics_named_setters_return (k : Kernel)
    (buffer : Nat) (scalar : Int) (length : Nat) (name : String)
    (scalar_opt : Option Int) (buffer_opt : Option Nat) (code : Int)
    (idx : Nat) (h : k.named_args.lookup name = some idx) :
    (∃ m, (k.arg_buf buffer (ForeignStatus.failure code)).2 =
      PanicOr.panic m) ∧
    (∃ m, (k.arg_scl scalar (ForeignStatus.failure code)).2 =
      PanicOr.panic m) ∧
    (∃ m, (k.arg_loc length (ForeignStatus.failure code)).2 =
      PanicOr.panic m) ∧
    (∃ m, (k.arg_scl_named name scalar_opt (ForeignStatus.failure code)).2 =
      PanicOr.panic m) ∧
    (∃ m, (k.arg_buf_named name buffer_opt (ForeignStatus.failure code)).2 =
      PanicOr.panic m) ∧
    (k.set_arg_scl_named name scalar (ForeignStatus.failure code)).2 =
      Except.error (OclError.foreign code) ∧
    (k.set_arg_buf_named name buffer_opt (ForeignStatus.failure code)).2 =
      Except.error (OclError.foreign code) := by
  refine ⟨⟨_, rfl⟩, ⟨_, rfl⟩, ⟨_, rfl⟩, ?_, ?_, ?_, ?_⟩
  · cases scalar_opt <;> exact ⟨_, rfl⟩
  · cases buffer_opt <;> exact ⟨_, rfl⟩
  · simp [Kernel.set_arg_scl_named, Kernel.resolve_named_arg_idx, h,
      Kernel.set_arg]
  · cases buffer_opt <;>
      simp [Kernel.set_arg_buf_named, Kernel.resolve_named_arg_idx, h,
        Kernel.set_arg]

/-- Witness for C6 at the sample kernel, whose map binds "x" to slot 1. -/
theorem claim_C6_witness :
    kSample.named_args.lookup "x" = some 1 ∧
      (∃ m, (kSample.arg_scl 5 (ForeignStatus.failure (-30))).2 =
        PanicOr.panic m) ∧
      (kSample.set_arg_scl_named "x" 7 (ForeignStatus.failure (-30))).2 =
        Except.error (OclError.foreign (-30)) :=
  ⟨by decide,
    (claim_C6_builder_panics_named_setters_return kSample 0 5 0 "x" none
      none (-30) 1 (by decide)).2.1,
    (claim_C6_builder_panics_named_setters_return kSample 0 5 0 "x" none
      none (-30) 1 (by decide)).2.2.2.2.2.1⟩

/-- C7: attaching a global work offset or local work size whose dim count
differs from the global size's panics at once with an empty foreign-call
trace and yields no updated handle; when the dim counts agree the setter
stores the new value and changes nothing else. -/
theorem claim_C7_dim_mismatch_rejected (k : Kernel) (g l : WorkDims) :
    (g.dim_count ≠ k.gws.dim_count →
      k.set_gwo g =
        ([], PanicOr.panic "ocl::Kernel::gwo(): Work size mismatch.")) ∧
    (g.dim_count = k.gws.dim_count →
      k.set_gwo g = ([], PanicOr.ok { k with gwo := g })) ∧
    (l.dim_count ≠ k.gws.dim_count →
      k.set_lws l =
        ([], PanicOr.panic "ocl::Kernel::lws(): Work size mismatch.")) ∧
    (l.dim_count = k.gws.dim_count →
      k.set_lws l = ([], PanicOr.ok { k with lws := l })) := by
  refine ⟨?_, ?_, ?_, ?_⟩ <;> intro h <;>
    simp [Kernel.set_gwo, Kernel.set_lws, h]

/-- Witness for C7: a 1-D offset is rejected against the 3-D sample
kernel, and a matching 3-D local size is stored. -/
theorem claim_C7_witness :
    (WorkDims.One 2).dim_count ≠ kSample.gws.dim_count ∧
      kSample.set_gwo (WorkDims.One 2) =
        ([], PanicOr.panic "ocl::Kernel::gwo(): Work size mismatch.") ∧
      (WorkDims.Three 2 2 2).dim_count = kSample.gws.dim_count ∧
      kSample.set_lws (WorkDims.Three 2 2 2) =
        ([], PanicOr.ok { kSample with lws := WorkDims.Three 2 2 2 }) :=
  ⟨by decide,
    (claim_C7_dim_mismatch_rejected kSample (WorkDims.One 2)
      (WorkDims.Three 2 2 2)).1 (by decide),
    by decide,
    (claim_C7_dim_mismatch_rejected kSample (WorkDims.One 2)
      (WorkDims.Three 2 2 2)).2.2.2 (by decide)⟩

/-- C8 (bug in the code): `arg_count` is initialized to 0 and never
incremented by any argument-adding call (only `arg_index` is), so after a
successful `arg_scl` the accessor still reports 0 arguments, although the
counter shows one slot was allocated and pushed. -/
theorem claim_C8_arg_count_never_incremented :
    Kernel.new "add" 3 (WorkDims.Three 4 4 4) (Except.ok 7) =
      Except.ok kFresh ∧
    ∃ k1, (kFresh.arg_scl 5 ForeignStatus.success).2 = PanicOr.ok k1 ∧
      k1.arg_count = 0 ∧ k1.arg_index = 1 :=
  ⟨rfl, { kFresh with arg_index := 1 }, rfl, rfl, rfl⟩

/-- Raising the argument counter preserves the named-index invariant. -/
theorem namedIdxInv_bump {k : Kernel} (hk : namedIdxInv k) :
    namedIdxInv { k with arg_index := k.arg_index + 1 } := by
  intro p hp
  exact Nat.lt_succ_of_lt (hk p hp)

/-- Registering a name at the pre-increment index while raising the
counter preserves the named-index invariant. -/
theorem namedIdxInv_insert {k : Kernel} (hk : namedIdxInv k)
    (name : String) :
    namedIdxInv { k with
      arg_index := k.arg_index + 1
      named_args := insertNamed k.named_args name k.arg_index } := by
  intro p hp
  rcases mem_insertNamed hp with h | h
  · rw [h]; exact Nat.lt_succ_self _
  · exact Nat.lt_succ_of_lt (hk p h)

/-- C9: `enqueue` returns the handle unchanged whenever it returns one,
two enqueues with identical arguments issue identical independent
dispatch calls, and each call's outcome depends only on its own foreign
status. -/
theorem claim_C9_enqueue_leaves_handle_unchanged (k : Kernel)
    (w d : Option Nat) (s1 s2 : ForeignStatus)
    (h : k.gws ≠ WorkDims.Unspecified) :
    (∀ tr k1, step k (Op.opEnqueue w d) s1 = (tr, PanicOr.ok k1) →
      k1 = k) ∧
    (k.enqueue w d s1).1 = (k.enqueue w d s2).1 ∧
    ((k.enqueue w d s1).2 = PanicOr.ok () ↔
      s1 = ForeignStatus.success) := by
  obtain ⟨gr, hgr⟩ : ∃ gr, k.gws.as_raw = some gr := by
    cases hg : k.gws with
    | Unspecified => exact absurd hg h
    | One x => exact ⟨_, rfl⟩
    | Two x y => exact ⟨_, rfl⟩
    | Three x y z => exact ⟨_, rfl⟩
  refine ⟨?_, ?_, ?_⟩
  · intro tr k1 hstep
    cases s1 with
    | success =>
        simp [step, Kernel.enqueue, hgr] at hstep
        exact hstep.2.symm
    | failure code => simp [step, Kernel.enqueue, hgr] at hstep
  · cases s1 <;> cases s2 <;> simp [Kernel.enqueue, hgr]
  · cases s1 <;> simp [Kernel.enqueue, hgr]

/-- Witness for C9 at the sample kernel with one success and one failure
status. -/
theorem claim_C9_witness :
    kSample.gws ≠ WorkDims.Unspecified ∧
      (kSample.enqueue none none ForeignStatus.success).1 =
        (kSample.enqueue none none (ForeignStatus.failure (-5))).1 ∧
      ((kSample.enqueue none none ForeignStatus.success).2 =
          PanicOr.ok () ↔
        ForeignStatus.success = ForeignStatus.success) :=
  ⟨by decide,
    (claim_C9_enqueue_leaves_handle_unchanged kSample none none
      ForeignStatus.success (ForeignStatus.failure (-5)) (by decide)).2.1,
    (claim_C9_enqueue_leaves_handle_unchanged kSample none none
      ForeignStatus.success (ForeignStatus.failure (-5)) (by decide)).2.2⟩

/-- C10: every operation on a kernel handle preserves the invariant that
each slot index in the named-argument map is strictly below the
argument-position counter, and under that invariant every successful
name resolution targets an already-allocated slot index. -/
theorem claim_C10_named_index_invariant (k : Kernel) (op : Op)
    (st : ForeignStatus) (tr : List ForeignCall) (k1 : Kernel)
    (hk : namedIdxInv k) (hstep : step k op st = (tr, PanicOr.ok k1)) :
    namedIdxInv k1 ∧
    ∀ name idx, k.resolve_named_arg_idx name = Except.ok idx →
      idx < k.arg_index := by
  constructor
  · cases op with
    | opArgBuf buffer =>
        cases st with
        | success =>
            simp [step, Kernel.arg_buf, Kernel.new_arg_buf,
              Kernel.new_arg] at hstep
            exact hstep.2 ▸ namedIdxInv_bump hk
        | failure code =>
            simp [step, Kernel.arg_buf, Kernel.new_arg_buf,
              Kernel.new_arg] at hstep
    | opArgScl scalar =>
        cases st with
        | success =>
            simp [step, Kernel.arg_scl, Kernel.new_arg_scl,
              Kernel.new_arg] at hstep
            exact hstep.2 ▸ namedIdxInv_bump hk
        | failure code =>
            simp [step, Kernel.arg_scl, Kernel.new_arg_scl,
              Kernel.new_arg] at hstep
    | opArgLoc length =>
        cases st with
        | success =>
            simp [step, Kernel.arg_loc, Kernel.new_arg_loc,
              Kernel.new_arg] at hstep
            exact hstep.2 ▸ namedIdxInv_bump hk
        | failure code =>
            simp [step, Kernel.arg_loc, Kernel.new_arg_loc,
              Kernel.new_arg] at hstep
    | opArgSclNamed name scalar_opt =>
        cases st with
        | success =>
            cases scalar_opt <;>
              simp [step, Kernel.arg_scl_named, Kernel.new_arg_scl,
                Kernel.new_arg] at hstep <;>
              exact hstep.2 ▸ namedIdxInv_insert hk name
        | failure code =>
            cases scalar_opt <;>
              simp [step, Kernel.arg_scl_named, Kernel.new_arg_scl,
                Kernel.new_arg] at hstep
    | opArgBufNamed name buffer_opt =>
        cases st with
        | success =>
            cases buffer_opt <;>
              simp [step, Kernel.arg_buf_named, Kernel.new_arg_buf,
                Kernel.new_arg] at hstep <;>
              exact hstep.2 ▸ namedIdxInv_insert hk name
        | failure code =>
            cases buffer_opt <;>
              simp [step, Kernel.arg_buf_named, Kernel.new_arg_buf,
                Kernel.new_arg] at hstep
    | opSetArgSclNamed name scalar =>
        simp [step] at hstep
        exact hstep.2 ▸ hk
    | opSetArgBufNamed name buffer_opt =>
        simp [step] at hstep
        exact hstep.2 ▸ hk
    | opSetGwo gwo =>
        by_cases hdim : gwo.dim_count = k.gws.dim_count <;>
          simp [step, Kernel.set_gwo, hdim] at hstep
        rw [← hstep.2]
        intro p hp
        exact hk p hp
    | opSetLws lws =>
        by_cases hdim : lws.dim_count = k.gws.dim_count <;>
          simp [step, Kernel.set_lws, hdim] at hstep
        rw [← hstep.2]
        intro p hp
        exact hk p hp
    | opEnqueue wait_list dest_list =>
        cases henq : k.enqueue wait_list dest_list st with
        | mk tr0 r =>
            cases r with
            | ok u =>
                cases u
                simp [step, henq] at hstep
                exact hstep.2 ▸ hk
            | panic m => simp [step, henq] at hstep
  · intro name idx hres
    rw [Kernel.resolve_named_arg_idx] at hres
    cases hl : k.named_args.lookup name with
    | none => rw [hl] at hres; cases hres
    | some i =>
        rw [hl] at hres
        obtain ⟨p, hp, hv⟩ := lookup_mem_val hl
        have hik : i < k.arg_index := hv ▸ hk p hp
        cases hres
        exact hik

/-- Witness for C10: the sample kernel satisfies the invariant, and one
successful `arg_scl` step preserves it. -/
theorem claim_C10_witness :
    namedIdxInv { kSample with arg_index := 3 } :=
  (claim_C10_named_index_invariant kSample (Op.opArgScl 5)
    ForeignStatus.success
    [ForeignCall.setKernelArg kSample.obj_raw kSample.arg_index
      (KernelArg.Scalar 5) (some kSample.name)]
    { kSample with arg_index := 3 } (by decide) rfl).1

end FilOcl
